import Mathlib

/-
Shallow embedding of the declarative executable-launch pipeline of
`nwp_pyutils` (src/execute/executable_interface.py), together with the
helpers it calls from src/tools/parser_interface.py and
src/tools/system_interface.py.  External effects are passed in
explicitly: the process environment as `String → Option String`, the
filesystem-existence test as `String → Bool`, the `app_path` lookup as
`String → Option String`, and the behaviour of spawned children (exit
code, stream contents) as plain values.  Python exceptions are an
inductive error type propagated through `Except`.
-/

namespace NwpPyutils

/-- Python runtime values that can end up in the `ntasks` attribute: the code
stores either the raw environment string (`ntasks = value` in
`__check_exectype__`) or the integer `1` (`ntasks = 1` in the serial branch). -/
inductive PyVal where
  | pstr (s : String)
  | pint (n : Int)
deriving DecidableEq

/-- Python `==` between the values `ntasks` can hold: a string never equals an
int in Python, so `"0" == 0` is `False`. -/
def pyEq : PyVal → PyVal → Bool
  | .pstr a, .pstr b => a == b
  | .pint a, .pint b => a == b
  | _, _ => false

/-- Exception kinds the embedded code can raise.  `executableError` is
`utils.exceptions_interface.ExecutableInterfaceError`; the other three are
builtin Python exceptions that escape the code uncaught. -/
inductive PyErr where
  | executableError (msg : String)
  | unboundLocalError
  | attributeError
  | typeError
deriving DecidableEq

/-- The Configuration Object: the SimpleNamespace threaded through the
pipeline, with the fields the schema-validated object carries.  Python `None`
is `none`; absent-by-default fields start as `none` / `false` / `[]`. -/
structure Config where
  exec_path : String
  run_path : String
  scheduler : Option String := none
  launcher : Option String := none
  multi : Bool := false
  serial : Bool := false
  task_keys : List String := []
  ntasks : Option PyVal := none
  img_path : Option String := none
  container : Bool := false
  nprocs_flag : Option String := none
  cmd : List String := []
  stderr : Option String := none
  stdout : Option String := none
  rc : Option Int := none
  schema_path : Option String := none
deriving DecidableEq

/-- Python f-string rendering of a possibly-None string attribute:
`f"{None}"` is the string `"None"`. -/
def pyStr : Option String → String
  | none => "None"
  | some s => s

/-- Python f-string rendering of the `ntasks` attribute. -/
def pyStrVal : Option PyVal → String
  | none => "None"
  | some (.pstr s) => s
  | some (.pint n) => toString n

/-- Python `str.lower()` on the ASCII scheduler names the code compares
against. -/
def pyLower (s : String) : String :=
  ⟨s.data.map Char.toLower⟩

/-- Python `str.upper()`, used when formatting the unrecognized-scheduler
message. -/
def pyUpper (s : String) : String :=
  ⟨s.data.map Char.toUpper⟩

/-- src/tools/parser_interface.py `enviro_get`: returns the environment
variable's value, or None when it is not defined. -/
def enviro_get (env : String → Option String) (envvar : String) : Option String :=
  env envvar

/-- Message raised by `__check_exectype__` when `ntasks == 0`. -/
def multiZeroMsg : String :=
  "For parallel/multi-processor applications, the total number of available tasks must be non-zero. Aborting!!!"

/-- src/execute/executable_interface.py `__check_exectype__`: defaults
`serial` when neither flag is set; when `multi`, probes `task_keys` in order
and keeps the first environment value found (`break`), compares it against
the int `0` with Python `==` (a string, so the comparison is always `False`),
and raises `UnboundLocalError` at that comparison when no key was bound (the
local `ntasks` was never assigned); when `serial`, overrides `ntasks` with
the int `1`. -/
def check_exectype (env : String → Option String) (cfg : Config) : Except PyErr Config :=
  let cfg := if !(cfg.multi || cfg.serial) then { cfg with serial := true } else cfg
  if cfg.multi then
    match cfg.task_keys.findSome? (enviro_get env) with
    | some v =>
      if pyEq (.pstr v) (.pint 0) then
        .error (.executableError multiZeroMsg)
      else
        .ok { cfg with ntasks := some (if cfg.serial then .pint 1 else .pstr v) }
    | none => .error .unboundLocalError
  else
    .ok { cfg with ntasks := some (.pint 1) }

/-- src/execute/executable_interface.py `__check_sifimg__`: raises
`ExecutableInterfaceError` when the image path does not exist; otherwise
looks up the `singularity` binary via `system_interface.app_path` (modelled
as the `app_path` parameter, which returns the path or None per
src/tools/system_interface.py).  When the binary is found, the inspection
subprocess either succeeds (`container := true`) or raises
`CalledProcessError`, which is caught, logged and gives `container := false`
(the `inspectExitZero` parameter selects between the two).  When `app_path`
returns None, `subprocess.run([None, ...])` raises `TypeError`, which the
surrounding `except AttributeError` does NOT catch, so it escapes.  The
`img_path = none` branch is unreachable from `__validate`, which guards on
`img_path is not None`; there `fileexist(None)` would raise `TypeError`. -/
def check_sifimg (fileexist : String → Bool) (app_path : String → Option String)
    (inspectExitZero : Bool) (cfg : Config) : Except PyErr Config :=
  match cfg.img_path with
  | none => .error .typeError
  | some img =>
    if !(fileexist img) then
      .error (.executableError
        ("The Singularity container path " ++ img ++ " does not exist. Aborting!!!"))
    else
      match app_path "singularity" with
      | some _ => .ok { cfg with container := inspectExitZero }
      | none => .error .typeError

/-- src/execute/executable_interface.py `__get_nprocs_flag__`: the code calls
`exec_obj.scheduler.lower()` unconditionally, so a None scheduler raises
`AttributeError` before any branch is taken. -/
def get_nprocs_flag (cfg : Config) : Except PyErr Config :=
  match cfg.scheduler with
  | none => .error .attributeError
  | some s =>
    let flag :=
      if pyLower s = "mpi" then (if cfg.multi then some "-np" else none)
      else if pyLower s = "slurm" then (if cfg.multi then some "-n" else none)
      else none
    .ok { cfg with nprocs_flag := flag }

/-- src/execute/executable_interface.py `__get_cmd__`: recomputes
`nprocs_flag` via `__get_nprocs_flag__`, then builds the command list; every
element is an f-string rendering of the attribute. -/
def get_cmd (cfg : Config) : Except PyErr Config := do
  let cfg ← get_nprocs_flag cfg
  let cmd :=
    match cfg.nprocs_flag with
    | none => [cfg.exec_path]
    | some flag => [pyStr cfg.launcher, flag, pyStrVal cfg.ntasks, cfg.exec_path]
  pure { cfg with cmd := cmd }

/-- src/execute/executable_interface.py `__redirect__`, defaulting part:
unset redirect paths default to `stderr.log` / `stdout.log` under
`run_path` (with a logged warning each). -/
def redirect_defaults (cfg : Config) : Config :=
  let cfg :=
    if cfg.stderr = none then { cfg with stderr := some (cfg.run_path ++ "/stderr.log") } else cfg
  if cfg.stdout = none then { cfg with stdout := some (cfg.run_path ++ "/stdout.log") } else cfg

/-- src/execute/executable_interface.py `__redirect__`, yielded handles:
after opening the file at `exec_obj.stderr` as `stderr` and the file at
`exec_obj.stdout` as `stdout`, the context manager yields
`(stderr, stderr)` — the stderr handle twice.  A handle is identified here
by the path of the file it writes to. -/
def redirect_yield (cfg : Config) : String × String :=
  (pyStr cfg.stderr, pyStr cfg.stderr)

/-- Contents of the log files after `__run` spawns the child: both redirect
files are opened with mode "w" (truncated to empty), the child's standard
error stream is written through the first yielded handle and its standard
output stream through the second (`Popen(cmd, stderr=h1, stdout=h2)`).
Paths other than the two redirect paths are untouched (`none`). -/
def run_files (cfg : Config) (childOut childErr : String) : String → Option String :=
  let cfg := redirect_defaults cfg
  let handles := redirect_yield cfg
  fun p =>
    if p = pyStr cfg.stderr ∨ p = pyStr cfg.stdout then
      some ((if handles.1 = p then childErr else "")
        ++ (if handles.2 = p then childOut else ""))
    else none

/-- Error message raised by `__run` on a non-zero exit code. -/
def runFailMsg (cfg : Config) (rc : Int) : String :=
  "Executable " ++ cfg.exec_path ++ " failed with error code " ++ toString rc
    ++ "; the error log is available at " ++ pyStr cfg.stderr ++ ". Aborting!!!"

/-- src/execute/executable_interface.py `__run`: builds the command, applies
the redirect defaults, spawns the child (its exit code is the `childRc`
parameter), stores the return code, and raises `ExecutableInterfaceError`
exactly when the return code is non-zero; otherwise it logs completion and
returns. -/
def run (childRc : Int) (cfg : Config) : Except PyErr Config := do
  let cfg ← get_cmd cfg
  let cfg := redirect_defaults cfg
  let cfg := { cfg with rc := some childRc }
  if childRc ≠ 0 then
    .error (.executableError (runFailMsg cfg childRc))
  else
    pure cfg

/-- src/execute/executable_interface.py `__launcher`: a no-op when
`exec_obj.launcher` is already set; otherwise derives the launcher from the
scheduler (`app_path "mpirun"` / `app_path "srun"`), raises
`ExecutableInterfaceError` with the upper-cased scheduler name when the
scheduler is not recognized, and warns and sets `launcher := none` when the
scheduler is None. -/
def launcher (app_path : String → Option String) (cfg : Config) : Except PyErr Config :=
  match cfg.launcher with
  | some _ => .ok cfg
  | none =>
    match cfg.scheduler with
    | some s =>
      if pyLower s = "mpi" then .ok { cfg with launcher := app_path "mpirun" }
      else if pyLower s = "slurm" then .ok { cfg with launcher := app_path "srun" }
      else
        .error (.executableError
          ("The job scheduler type " ++ pyUpper s ++ " is not recognized. Aborting!!!"))
    | none => .ok { cfg with launcher := none }

/-- src/execute/executable_interface.py `__schema`: joins `PYUTILS_ROOT`
with the fixed schema file location (`os.path.join` on a None root raises
`TypeError`, caught and re-raised as `ExecutableInterfaceError`), then
requires the schema file to exist. -/
def schema (env : String → Option String) (fileexist : String → Bool)
    (cfg : Config) : Except PyErr Config :=
  match env "PYUTILS_ROOT" with
  | none =>
    .error (.executableError
      ("Defining the executable schema path failed; please check that the environment variable `PYUTILS_ROOT` is defined within the run-time environment. Aborting!!!"))
  | some root =>
    let schema_path := root ++ "/execute/schema/executable.schema.yaml"
    if !(fileexist schema_path) then
      .error (.executableError
        ("The YAML-formatted schema file path " ++ schema_path ++ " does not exist. Aborting!!!"))
    else
      .ok { cfg with schema_path := some schema_path }

/-- src/execute/executable_interface.py `__setup`: the default-filling
schema-validation pass.  The Schema Validator
(utils.schema_interface.validate_schema, an external collaborator) is the
`validate_defaults` parameter. -/
def setup (validate_defaults : Config → Except PyErr Config)
    (cfg : Config) : Except PyErr Config :=
  validate_defaults cfg

/-- src/execute/executable_interface.py `__validate`: runs `__check_sifimg__`
only when `img_path` is not None, then `__check_exectype__`, then the strict
schema-validation pass (the external Schema Validator, here the
`validate_strict` parameter). -/
def validate (fileexist : String → Bool) (app_path : String → Option String)
    (inspectExitZero : Bool) (env : String → Option String)
    (validate_strict : Config → Except PyErr Config)
    (cfg : Config) : Except PyErr Config := do
  let cfg ← if cfg.img_path.isSome then check_sifimg fileexist app_path inspectExitZero cfg
    else pure cfg
  let cfg ← check_exectype env cfg
  validate_strict cfg

/-- The six pipeline stages of the Decorator Orchestrator. -/
inductive Stage where
  | build
  | schema
  | setup
  | launcher
  | validate
  | run
deriving DecidableEq

/-- All six stages, in the order `app_exec`'s wrapper executes them. -/
def allStages : List Stage :=
  [.build, .schema, .setup, .launcher, .validate, .run]

/-- The ambient world an orchestration runs in: process environment,
filesystem, binary lookup, inspection outcome, the two external Schema
Validator passes, and the child's exit code. -/
structure World where
  env : String → Option String
  fileexist : String → Bool
  app_path : String → Option String
  inspectExitZero : Bool
  validate_defaults : Config → Except PyErr Config
  validate_strict : Config → Except PyErr Config
  childRc : Int

/-- The stage sequence of `app_exec`'s wrapper after the builder has
produced the initial Configuration Object: `__schema`, `__setup`,
`__launcher`, `__validate`, `__run`, stopping at the first exception.  The
trace records the stages that executed; the final Configuration Object is
discarded (the wrapper body has no return statement), so success carries
`Unit` — Python None. -/
def orchestrate (w : World) (cfg : Config) : List Stage × Except PyErr Unit :=
  match schema w.env w.fileexist cfg with
  | .error e => ([.build, .schema], .error e)
  | .ok cfg =>
  match setup w.validate_defaults cfg with
  | .error e => ([.build, .schema, .setup], .error e)
  | .ok cfg =>
  match launcher w.app_path cfg with
  | .error e => ([.build, .schema, .setup, .launcher], .error e)
  | .ok cfg =>
  match validate w.fileexist w.app_path w.inspectExitZero w.env w.validate_strict cfg with
  | .error e => ([.build, .schema, .setup, .launcher, .validate], .error e)
  | .ok cfg =>
  match run w.childRc cfg with
  | .error e => (allStages, .error e)
  | .ok _ => (allStages, .ok ())

/-- A Python coroutine: a computation that performs nothing until awaited. -/
def Coroutine (α : Type) : Type :=
  Unit → α

/-- Awaiting a coroutine forces the computation. -/
def awaitCoro {α : Type} (c : Coroutine α) : α :=
  c ()

/-- A builder function passed to `app_exec`: either an ordinary function
returning a Configuration Object, or a coroutine function
(`inspect.iscoroutinefunction` distinguishes the two in the wrapper). -/
inductive Builder (α : Type) where
  | sync (f : α → Config)
  | coro (f : α → Coroutine Config)

/-- The BUILD stage: call the builder, awaiting it when it is a coroutine
function (`exec_obj = await func(...)` versus `exec_obj = func(...)`). -/
def buildStep {α : Type} : Builder α → α → Config
  | .sync f, a => f a
  | .coro f, a => awaitCoro (f a)

/-- src/execute/executable_interface.py `app_exec`: wraps a builder in an
`async def` wrapper.  Calling the wrapped function produces a coroutine;
nothing runs until that coroutine is awaited, at which point the builder and
the five remaining stages execute in order and the wrapper returns None. -/
def app_exec {α : Type} (w : World) (b : Builder α) :
    α → Coroutine (List Stage × Except PyErr Unit) :=
  fun a _ => orchestrate w (buildStep b a)

/-- Decidable equality on `Except` results, used to evaluate the embedded
functions on concrete inputs. -/
instance {ε α : Type} [DecidableEq ε] [DecidableEq α] : DecidableEq (Except ε α) := fun x y =>
  match x, y with
  | .ok a, .ok b =>
    if h : a = b then isTrue (h ▸ rfl) else isFalse (fun hh => h (Except.ok.inj hh))
  | .error a, .error b =>
    if h : a = b then isTrue (h ▸ rfl) else isFalse (fun hh => h (Except.error.inj hh))
  | .ok _, .error _ => isFalse (fun hh => Except.noConfusion hh)
  | .error _, .ok _ => isFalse (fun hh => Except.noConfusion hh)

/-- String containment: the needle's characters appear contiguously in the
haystack. -/
abbrev StrContains (h n : String) : Prop :=
  n.toList <:+: h.toList

/-- Environment binding a single task-count key to the string "0". -/
def envZero : String → Option String :=
  fun k => if k = "NTASKS" then some "0" else none

/-- Empty environment: every variable is unbound. -/
def envNone : String → Option String :=
  fun _ => none

/-- Environment binding the first probe key to "0" and the second to "5". -/
def envAB : String → Option String :=
  fun k => if k = "TASKS_A" then some "0" else if k = "TASKS_B" then some "5" else none

/-- Environment binding only the second probe key, to "5". -/
def envB5 : String → Option String :=
  fun k => if k = "TASKS_B" then some "5" else none

/-- A serial configuration in a fresh run directory, redirect paths unset. -/
def cfgRedirect : Config :=
  { exec_path := "/tmp/run/script.sh", run_path := "/tmp/run",
    scheduler := some "slurm", serial := true }

/-- The configuration `__run 0` produces from `cfgRedirect`: command built,
redirect paths defaulted, return code recorded. -/
def cfgRedirectAfter : Config :=
  { exec_path := "/tmp/run/script.sh", run_path := "/tmp/run",
    scheduler := some "slurm", serial := true,
    cmd := ["/tmp/run/script.sh"],
    stderr := some "/tmp/run/stderr.log", stdout := some "/tmp/run/stdout.log",
    rc := some 0 }

/-- A multi-processor configuration probing the single key `NTASKS`. -/
def cfgMulti : Config :=
  { exec_path := "/bin/app", run_path := "/tmp/run",
    multi := true, task_keys := ["NTASKS"] }

/-- A multi-processor configuration probing `TASKS_A` then `TASKS_B`. -/
def cfgMultiAB : Config :=
  { exec_path := "/bin/app", run_path := "/tmp/run",
    multi := true, task_keys := ["TASKS_A", "TASKS_B"] }

/-- A serial configuration whose scheduler attribute is None. -/
def cfgNoSched : Config :=
  { exec_path := "/bin/app", run_path := "/tmp/run", serial := true }

/-- A serial slurm configuration with an already-resolved launcher. -/
def cfgSlurmSerial : Config :=
  { exec_path := "/bin/app", run_path := "/tmp/run",
    scheduler := some "slurm", serial := true, launcher := some "/usr/bin/srun" }

/-- A multi-processor mpi configuration with launcher and task count resolved. -/
def cfgMpiMulti : Config :=
  { exec_path := "/bin/app", run_path := "/tmp/run",
    scheduler := some "mpi", multi := true,
    launcher := some "/usr/bin/mpirun", ntasks := some (.pint 8) }

/-- A configuration carrying a Singularity image path. -/
def cfgSif : Config :=
  { exec_path := "/bin/app", run_path := "/tmp/run",
    serial := true, img_path := some "/images/app.sif" }

/-- A configuration with an unrecognized scheduler name and no launcher. -/
def cfgBogus : Config :=
  { exec_path := "/bin/app", run_path := "/tmp/run", scheduler := some "bogus" }

/-- A configuration whose launcher field is already set, with an unrecognized
scheduler name. -/
def cfgPreset : Config :=
  { exec_path := "/bin/app", run_path := "/tmp/run",
    launcher := some "/custom/launch", scheduler := some "weird" }

/-- The message `__launcher` raises for the scheduler name "bogus". -/
def bogusMsg : String :=
  "The job scheduler type BOGUS is not recognized. Aborting!!!"

/-- A world in which every external collaborator cooperates: the schema root
is set, all files exist, no binaries are found (serial execution), both
validation passes accept, and the child exits 0. -/
def worldOk : World :=
  { env := fun k => if k = "PYUTILS_ROOT" then some "/opt/pyutils" else none,
    fileexist := fun _ => true,
    app_path := fun _ => none,
    inspectExitZero := true,
    validate_defaults := fun c => .ok c,
    validate_strict := fun c => .ok c,
    childRc := 0 }

/-- The schema path `worldOk` resolves. -/
def schemaPathOk : String :=
  "/opt/pyutils/execute/schema/executable.schema.yaml"

/-- `cfgRedirect` after the SCHEMA_RESOLVE stage under `worldOk`. -/
def cfgW1 : Config :=
  { cfgRedirect with schema_path := some schemaPathOk }

/-- `cfgW1` after the VALIDATE stage under `worldOk`. -/
def cfgW4 : Config :=
  { cfgW1 with ntasks := some (.pint 1) }

/-- `cfgW4` after the RUN stage under `worldOk`. -/
def cfgW5 : Config :=
  { cfgW4 with
      cmd := ["/tmp/run/script.sh"]
      stderr := some "/tmp/run/stderr.log"
      stdout := some "/tmp/run/stdout.log"
      rc := some 0 }

/-- Containment witnessed by a character-level decomposition. -/
theorem strContains_of_eq (h n : String) (pre post : List Char)
    (e : h.toList = pre ++ n.toList ++ post) : StrContains h n :=
  ⟨pre, post, e.symm⟩

/-- C1: the Process Runner is claimed to redirect the child's standard output
to a distinct file at the stdout path, so that a child writing "ok" to stdout
with exit code 0 leaves "ok" in `stdout.log` under `run_path`.  The code at
src/execute/executable_interface.py:387 yields the stderr handle for both
roles, so the child's "ok" lands in `stderr.log` and `stdout.log` is created
empty: the run succeeds, yet `stdout.log` does not contain "ok". -/
theorem c1_redirect_stdout_bug :
    run_files cfgRedirect "ok" "" "/tmp/run/stdout.log" = some "" ∧
    run_files cfgRedirect "ok" "" "/tmp/run/stdout.log" ≠ some "ok" ∧
    run_files cfgRedirect "ok" "" "/tmp/run/stderr.log" = some "ok" ∧
    redirect_yield (redirect_defaults cfgRedirect)
      = ("/tmp/run/stderr.log", "/tmp/run/stderr.log") ∧
    run 0 cfgRedirect = .ok cfgRedirectAfter := by
  decide

/-- C2: task-type resolution is claimed to raise an ExecutableError both when
every `task_keys` entry is unbound and when the first bound entry is "0".
The code compares the environment string against the int `0` with Python
`==`, which is always `False`, so the "0" case raises nothing and stores the
string "0" in `ntasks`; and when no entry is bound, the local `ntasks` is
never assigned, so the comparison raises `UnboundLocalError`, not
`ExecutableError`. -/
theorem c2_zero_string_no_error :
    check_exectype envZero cfgMulti = .ok { cfgMulti with ntasks := some (.pstr "0") } ∧
    check_exectype envNone cfgMulti = .error .unboundLocalError := by
  decide

/-- C4: number-of-processors flag resolution is claimed to yield `"-np"` for
mpi+multi, `"-n"` for slurm+multi and null in every other case including a
null scheduler.  The mpi/slurm/serial/unrecognized cases behave as claimed,
but a null scheduler hits `None.lower()` and raises `AttributeError` instead
of yielding null. -/
theorem c4_nprocs_flag_none_scheduler_bug :
    get_nprocs_flag cfgNoSched = .error .attributeError ∧
    get_nprocs_flag { cfgNoSched with scheduler := some "mpi", multi := true }
      = .ok { cfgNoSched with scheduler := some "mpi", multi := true, nprocs_flag := some "-np" } ∧
    get_nprocs_flag { cfgNoSched with scheduler := some "slurm", multi := true }
      = .ok { cfgNoSched with scheduler := some "slurm", multi := true, nprocs_flag := some "-n" } ∧
    get_nprocs_flag { cfgNoSched with scheduler := some "mpi" }
      = .ok { cfgNoSched with scheduler := some "mpi", nprocs_flag := none } ∧
    get_nprocs_flag { cfgNoSched with scheduler := some "bogus", multi := true }
      = .ok { cfgNoSched with scheduler := some "bogus", multi := true, nprocs_flag := none } := by
  decide

/-- C5: command assembly is claimed to produce `[exec_path]` whenever the
derived nprocs flag is null, and `[launcher, flag, str(ntasks), exec_path]`
otherwise; with a non-null scheduler both cases hold (including
scheduler="slurm", multi=false with a resolved launcher), but with a null
scheduler the assembly raises `AttributeError` (through
`__get_nprocs_flag__`) instead of producing `[exec_path]`. -/
theorem c5_get_cmd_none_scheduler_bug :
    get_cmd cfgNoSched = .error .attributeError ∧
    get_cmd cfgSlurmSerial = .ok { cfgSlurmSerial with cmd := ["/bin/app"] } ∧
    get_cmd cfgMpiMulti
      = .ok { cfgMpiMulti with
                nprocs_flag := some "-np"
                cmd := ["/usr/bin/mpirun", "-np", "8", "/bin/app"] } := by
  decide

/-- C6, counterexample: with `TASKS_A` bound to "0" and `TASKS_B` bound to
"5", the first entry bound to a non-zero integer string is `TASKS_B`, so the
claim says `ntasks = 5`; the code stops at the first bound entry regardless
of its value and stores the string "0". -/
theorem c6_first_bound_cex :
    check_exectype envAB cfgMultiAB = .ok { cfgMultiAB with ntasks := some (.pstr "0") } ∧
    check_exectype envAB cfgMultiAB ≠ .ok { cfgMultiAB with ntasks := some (.pint 5) } ∧
    check_exectype envAB cfgMultiAB ≠ .ok { cfgMultiAB with ntasks := some (.pstr "5") } := by
  decide

/-- C6, amended: with multi=true and serial=false, `ntasks` is set to the
value of the first environment-bound `task_keys` entry in order — whatever
that value is, kept as the raw environment string (entries bound to "0" are
not skipped and raise nothing). -/
theorem c6_first_bound_value (env : String → Option String) (cfg : Config) (v : String)
    (hm : cfg.multi = true) (hs : cfg.serial = false)
    (hv : cfg.task_keys.findSome? (enviro_get env) = some v) :
    check_exectype env cfg = .ok { cfg with ntasks := some (.pstr v) } := by
  simp [check_exectype, hm, hs, hv, pyEq]

/-- C6, witness: probing `TASKS_A` then `TASKS_B` with only `TASKS_B` bound
to "5" stores the string "5". -/
theorem c6_first_bound_value_witness :
    check_exectype envB5 cfgMultiAB = .ok { cfgMultiAB with ntasks := some (.pstr "5") } :=
  c6_first_bound_value envB5 cfgMultiAB "5" rfl rfl (by decide)

/-- C7: container resolution is claimed never to raise when the image exists;
when the inspection tool is found it behaves as claimed (inspection success
sets `container := true`, a non-zero inspection logs and sets
`container := false`), but when `app_path` cannot locate the tool the code
builds `[None, "inspect", ...]` and `subprocess.run` raises `TypeError`,
which the `except AttributeError` clause does not catch. -/
theorem c7_sifimg_tool_missing_bug :
    check_sifimg (fun _ => true) (fun _ => none) true cfgSif = .error .typeError ∧
    check_sifimg (fun _ => true) (fun _ => some "/usr/bin/singularity") true cfgSif
      = .ok { cfgSif with container := true } ∧
    check_sifimg (fun _ => true) (fun _ => some "/usr/bin/singularity") false cfgSif
      = .ok { cfgSif with container := false } := by
  decide

/-- C9: when the launcher field is already non-null, `__launcher` skips its
whole body: it raises no error and returns the Configuration Object with
every field unchanged, whatever the scheduler holds. -/
theorem c9_launcher_preset_noop (ap : String → Option String) (cfg : Config) (l : String)
    (h : cfg.launcher = some l) :
    launcher ap cfg = .ok cfg := by
  unfold launcher
  rw [h]

/-- C9, witness: a preset launcher with the unrecognized scheduler name
"weird" passes through untouched. -/
theorem c9_launcher_preset_noop_witness :
    launcher (fun _ => none) cfgPreset = .ok cfgPreset :=
  c9_launcher_preset_noop (fun _ => none) cfgPreset "/custom/launch" rfl

/-- Helper: with a non-null scheduler, `__get_cmd__` succeeds and leaves the
executable path, redirect paths and run directory untouched. -/
theorem get_cmd_ok (cfg : Config) (s : String) (hs : cfg.scheduler = some s) :
    ∃ c1 : Config, get_cmd cfg = .ok c1 ∧ c1.exec_path = cfg.exec_path ∧
      c1.stderr = cfg.stderr ∧ c1.stdout = cfg.stdout ∧ c1.run_path = cfg.run_path := by
  unfold get_cmd get_nprocs_flag
  rw [hs]
  exact ⟨_, rfl, rfl, rfl, rfl, rfl⟩

/-- Helper: once the command is built, `__run` reduces to the exit-code test
on the redirected, return-code-carrying Configuration Object. -/
theorem run_shape (cfg : Config) (rc : Int) (c1 : Config) (hc : get_cmd cfg = .ok c1) :
    run rc cfg =
      if rc ≠ 0 then
        .error (.executableError (runFailMsg { redirect_defaults c1 with rc := some rc } rc))
      else .ok { redirect_defaults c1 with rc := some rc } := by
  unfold run
  rw [hc]
  rfl

/-- Helper: the redirect step never changes the executable path. -/
theorem redirect_defaults_exec_path (cfg : Config) :
    (redirect_defaults cfg).exec_path = cfg.exec_path := by
  unfold redirect_defaults
  by_cases h1 : cfg.stderr = none <;> by_cases h2 : cfg.stdout = none <;> simp [h1, h2]

/-- Helper: the stderr path the redirect step resolves depends only on the
incoming stderr path and run directory. -/
theorem redirect_defaults_stderr_congr (cfg c1 : Config)
    (h1 : c1.stderr = cfg.stderr) (h2 : c1.run_path = cfg.run_path) :
    (redirect_defaults c1).stderr = (redirect_defaults cfg).stderr := by
  unfold redirect_defaults
  by_cases hs : cfg.stderr = none <;> by_cases ho1 : c1.stdout = none <;>
    by_cases ho2 : cfg.stdout = none <;> simp [h1, h2, hs, ho1, ho2]

/-- Helper: the failure message of `__run` contains the executable path, the
exit code and the stderr log path. -/
theorem runFailMsg_contains (cfg : Config) (rc : Int) :
    StrContains (runFailMsg cfg rc) cfg.exec_path ∧
    StrContains (runFailMsg cfg rc) (toString rc) ∧
    StrContains (runFailMsg cfg rc) (pyStr cfg.stderr) := by
  refine ⟨strContains_of_eq _ _ "Executable ".toList
      (" failed with error code " ++ toString rc ++ "; the error log is available at "
        ++ pyStr cfg.stderr ++ ". Aborting!!!").toList ?_,
    strContains_of_eq _ _ ("Executable " ++ cfg.exec_path ++ " failed with error code ").toList
      ("; the error log is available at " ++ pyStr cfg.stderr ++ ". Aborting!!!").toList ?_,
    strContains_of_eq _ _ ("Executable " ++ cfg.exec_path ++ " failed with error code "
        ++ toString rc ++ "; the error log is available at ").toList
      ". Aborting!!!".toList ?_⟩ <;>
  simp [runFailMsg, String.toList, String.data_append, List.append_assoc]

/-- C3: for every Configuration Object whose command assembles (non-null
scheduler, so a child is actually spawned), `__run` raises an
ExecutableError exactly when the child's exit code is non-zero; the message
contains the executable path, the exit code and the (possibly defaulted)
stderr log path; on a zero exit code it returns normally. -/
theorem c3_run_error_iff (cfg : Config) (s : String) (rc : Int)
    (hs : cfg.scheduler = some s) :
    ((∃ m, run rc cfg = .error (.executableError m)) ↔ rc ≠ 0) ∧
    (∀ m, run rc cfg = .error (.executableError m) →
      StrContains m cfg.exec_path ∧ StrContains m (toString rc) ∧
      StrContains m (pyStr (redirect_defaults cfg).stderr)) ∧
    (rc = 0 → ∃ c, run rc cfg = .ok c) := by
  obtain ⟨c1, hc, hep, hse, hso, hrp⟩ := get_cmd_ok cfg s hs
  have hrun := run_shape cfg rc c1 hc
  have hmsg := runFailMsg_contains { redirect_defaults c1 with rc := some rc } rc
  have hep' : ({ redirect_defaults c1 with rc := some rc } : Config).exec_path
      = cfg.exec_path := by
    show (redirect_defaults c1).exec_path = cfg.exec_path
    rw [redirect_defaults_exec_path, hep]
  have hst : pyStr ({ redirect_defaults c1 with rc := some rc } : Config).stderr
      = pyStr (redirect_defaults cfg).stderr := by
    show pyStr (redirect_defaults c1).stderr = pyStr (redirect_defaults cfg).stderr
    rw [redirect_defaults_stderr_congr cfg c1 hse hrp]
  by_cases h0 : rc = 0
  · refine ⟨?_, ?_, ?_⟩
    · rw [hrun]
      simp [h0]
    · intro m hm
      rw [hrun] at hm
      simp [h0] at hm
    · intro _
      rw [hrun]
      simp [h0]
  · refine ⟨?_, ?_, ?_⟩
    · simp only [hrun]
      simp [h0]
    · intro m hm
      rw [hrun] at hm
      simp only [h0, if_pos, ne_eq, not_false_eq_true, if_true] at hm
      have hm' : runFailMsg { redirect_defaults c1 with rc := some rc } rc = m := by
        injection hm with hm1
        injection hm1
      rw [← hm']
      exact ⟨hep' ▸ hmsg.1, hmsg.2.1, hst ▸ hmsg.2.2⟩
    · intro h
      exact absurd h h0

/-- C3, witness: a slurm-serial configuration whose child exits 7. -/
theorem c3_run_error_iff_witness :
    ((∃ m, run 7 cfgRedirect = .error (.executableError m)) ↔ (7 : Int) ≠ 0) ∧
    (∀ m, run 7 cfgRedirect = .error (.executableError m) →
      StrContains m cfgRedirect.exec_path ∧ StrContains m (toString (7 : Int)) ∧
      StrContains m (pyStr (redirect_defaults cfgRedirect).stderr)) ∧
    ((7 : Int) = 0 → ∃ c, run 7 cfgRedirect = .ok c) :=
  c3_run_error_iff cfgRedirect "slurm" 7 rfl

/-- C8, counterexample: for the scheduler name "bogus" the raised message
upper-cases the name, so it contains "BOGUS" but not the literal name
"bogus" as supplied. -/
theorem c8_bogus_upper_cex :
    launcher (fun _ => none) cfgBogus = .error (.executableError bogusMsg) ∧
    ¬ StrContains bogusMsg "bogus" ∧
    StrContains bogusMsg (pyUpper "bogus") := by
  refine ⟨by decide, by decide, by decide⟩

/-- C8, amended: with launcher unset and a non-null scheduler that is neither
"mpi" nor "slurm" (case-insensitively), `__launcher` raises an
ExecutableError whose message contains the scheduler name upper-cased (hence
the literal name only when it was supplied in upper case). -/
theorem c8_unrecognized_scheduler_upper (ap : String → Option String) (cfg : Config)
    (s : String) (hl : cfg.launcher = none) (hs : cfg.scheduler = some s)
    (h1 : pyLower s ≠ "mpi") (h2 : pyLower s ≠ "slurm") :
    launcher ap cfg = .error (.executableError
      ("The job scheduler type " ++ pyUpper s ++ " is not recognized. Aborting!!!")) ∧
    StrContains ("The job scheduler type " ++ pyUpper s ++ " is not recognized. Aborting!!!")
      (pyUpper s) := by
  constructor
  · unfold launcher
    rw [hl, hs]
    simp [h1, h2]
  · exact strContains_of_eq _ _ "The job scheduler type ".toList
      " is not recognized. Aborting!!!".toList
      (by simp [String.toList, String.data_append, List.append_assoc])

/-- C8, witness: the scheduler name "bogus". -/
theorem c8_unrecognized_scheduler_upper_witness :
    launcher (fun _ => none) cfgBogus = .error (.executableError
      ("The job scheduler type " ++ pyUpper "bogus" ++ " is not recognized. Aborting!!!")) ∧
    StrContains ("The job scheduler type " ++ pyUpper "bogus" ++ " is not recognized. Aborting!!!")
      (pyUpper "bogus") :=
  c8_unrecognized_scheduler_upper (fun _ => none) cfgBogus "bogus" rfl rfl
    (by decide) (by decide)

/-- C10: for every builder, ordinary or coroutine, `app_exec` yields a
wrapper whose call produces a coroutine (a suspended computation); when every
stage succeeds, awaiting that coroutine executes the six pipeline stages in
order and yields None — the final Configuration Object is discarded. -/
theorem c10_app_exec_pipeline {α : Type} (w : World) (b : Builder α) (a : α)
    (c1 c2 c3 c4 c5 : Config)
    (h1 : schema w.env w.fileexist (buildStep b a) = .ok c1)
    (h2 : setup w.validate_defaults c1 = .ok c2)
    (h3 : launcher w.app_path c2 = .ok c3)
    (h4 : validate w.fileexist w.app_path w.inspectExitZero w.env w.validate_strict c3 = .ok c4)
    (h5 : run w.childRc c4 = .ok c5) :
    awaitCoro (app_exec w b a) = (allStages, .ok ()) := by
  simp [app_exec, awaitCoro, orchestrate, h1, h2, h3, h4, h5]

/-- C10, witness: a synchronous builder under `worldOk`. -/
theorem c10_app_exec_pipeline_witness :
    awaitCoro (app_exec worldOk (Builder.sync (fun _ : Unit => cfgRedirect)) ())
      = (allStages, .ok ()) :=
  c10_app_exec_pipeline worldOk (Builder.sync (fun _ : Unit => cfgRedirect)) ()
    cfgW1 cfgW1 cfgW1 cfgW4 cfgW5 (by decide) rfl (by decide) (by decide) (by decide)

end NwpPyutils
